import Mathlib

/-!
Verification development for the OneBot v11 adapter
(sakiko-adapter-onebot): a shallow embedding of its message-segment
model, event decoder, RPC correlator and connection registry, with
theorems checking the specified properties against the code.
-/

set_option maxHeartbeats 1000000

/-- A JavaScript runtime value as it appears in this code base: the
results of JSON.parse plus the undefined value produced by absent
object properties and NaN produced by failed Number conversions.
Arrays and objects are encoded as cons chains (arrCons / objCons) so
that the type is a plain, non-nested inductive. -/
inductive JSVal where
  | undefined
  | jnull
  | nan
  | bool (b : Bool)
  | num (n : Int)
  | str (s : String)
  | arrNil
  | arrCons (hd tl : JSVal)
  | objNil
  | objCons (key : String) (val tl : JSVal)
deriving DecidableEq, Repr

/-- Build an object value from an association list of fields. -/
def JSVal.obj : List (String × JSVal) → JSVal
  | [] => .objNil
  | (k, v) :: rest => .objCons k v (JSVal.obj rest)

/-- Build an array value from a list of element values. -/
def JSVal.arr : List JSVal → JSVal
  | [] => .arrNil
  | v :: rest => .arrCons v (JSVal.arr rest)

/-- The elements of an array value; non-arrays have none. -/
def JSVal.toList : JSVal → List JSVal
  | .arrCons h t => h :: JSVal.toList t
  | _ => []

/-- JS property access o[k]: the stored value when the key is present
(first occurrence), undefined otherwise or on non-objects. -/
def jGet : JSVal → String → JSVal
  | .objCons k v t, key => if k = key then v else jGet t key
  | _, _ => .undefined

/-- JS String(x) conversion for the values of this model. Arrays join
their elements with commas (null and undefined elements rendering
empty), objects render as the generic object tag. -/
def jsToString : JSVal → String
  | .undefined => "undefined"
  | .jnull => "null"
  | .nan => "NaN"
  | .bool b => cond b "true" "false"
  | .num n => toString n
  | .str s => s
  | .objNil => "[object Object]"
  | .objCons _ _ _ => "[object Object]"
  | .arrNil => ""
  | .arrCons h t =>
      (match h with
        | .undefined => ""
        | .jnull => ""
        | x => jsToString x) ++
      (match t with
        | .arrNil => ""
        | t2 => "," ++ jsToString t2)

/-- JS Number(x) on a string: empty or blank parses to 0, an integral
numeral to its value, anything else to NaN (this code base only feeds
integral ids and sizes through Number). -/
def strToNumber (s : String) : JSVal :=
  if s.trim = "" then .num 0
  else match s.trim.toInt? with
    | some n => .num n
    | none => .nan

/-- JS Number(x) conversion. -/
def jsToNumber : JSVal → JSVal
  | .num n => .num n
  | .bool b => .num (cond b 1 0)
  | .jnull => .num 0
  | .undefined => .nan
  | .nan => .nan
  | .str s => strToNumber s
  | v => strToNumber (jsToString v)

/-- JS truthiness: undefined, null, NaN, false, 0 and the empty string
are falsy; every other value is truthy. -/
def truthy : JSVal → Bool
  | .undefined => false
  | .jnull => false
  | .nan => false
  | .bool b => b
  | .num n => n != 0
  | .str s => s != ""
  | _ => true

example : jGet (.obj [("a", .num 3)]) "a" = .num 3 := by decide
example : jGet (.obj [("a", .num 3)]) "b" = .undefined := by decide
example : jsToString .undefined = "undefined" := by decide
example : truthy (.num 0) = false := by decide

/-!
Segment model, from the message module. Each class of the source
becomes one constructor; a field that the source declares as a
required string (and whose fromObj wraps in String()) is a Lean
String, every other field stores the raw JS value it holds at run
time. Node content is the eagerly decoded child message.
-/

inductive Segment where
  | Text (text : String)
  | At (qq : String)
  | Reply (id : String)
  | Face (id raw resultId chainCount : JSVal)
  | MFace (emojiId emojiPackageId : String) (key summary : JSVal)
  | Dice (result : JSVal)
  | RPS (result : JSVal)
  | Poke (type id : String)
  | Image (file : String) (url summary subType fileSize key emojiId emojiPackageId : JSVal)
  | Record (file : String) (fileSize path : JSVal)
  | Video (file : String) (url fileSize thumb : JSVal)
  | File (file : String) (fileId fileSize : JSVal)
  | Json (data : JSVal)
  | Music (type : String) (id url image singer title content : JSVal)
  | Forward (id : String) (content : JSVal)
  | Shake
  | Anonymous (ignore : JSVal)
  | Share (url title : String) (content image : JSVal)
  | Contact (type id : String)
  | Location (lat lon : String) (title content : JSVal)
  | Node (userId nickname : String) (content : List Segment)
  | Xml (data : String)
  | Unsupported (originalType : JSVal) (data : JSVal)
deriving Repr

/-- The wire shape of one raw message element: a type tag and a data
object, exactly the two properties the source reads from it. -/
structure SegmentLike where
  type : JSVal
  data : JSVal
deriving DecidableEq, Repr

def Text.fromObj (obj : SegmentLike) : Segment :=
  .Text (jsToString (jGet obj.data "text"))

def At.fromObj (obj : SegmentLike) : Segment :=
  .At (jsToString (jGet obj.data "qq"))

def Reply.fromObj (obj : SegmentLike) : Segment :=
  .Reply (jsToString (jGet obj.data "id"))

def Face.fromObj (obj : SegmentLike) : Segment :=
  .Face (jsToNumber (jGet obj.data "id")) (jGet obj.data "raw")
    (jGet obj.data "result_id") (jGet obj.data "chain_count")

def MFace.fromObj (obj : SegmentLike) : Segment :=
  .MFace (jsToString (jGet obj.data "emoji_id"))
    (jsToString (jGet obj.data "emoji_package_id"))
    (jGet obj.data "key") (jGet obj.data "summary")

def Dice.fromObj (obj : SegmentLike) : Segment :=
  .Dice (.str (jsToString (jGet obj.data "result")))

def RPS.fromObj (obj : SegmentLike) : Segment :=
  .RPS (.str (jsToString (jGet obj.data "result")))

def Poke.fromObj (obj : SegmentLike) : Segment :=
  .Poke (jsToString (jGet obj.data "type")) (jsToString (jGet obj.data "id"))

def Image.fromObj (obj : SegmentLike) : Segment :=
  .Image (jsToString (jGet obj.data "file"))
    (.str (jsToString (jGet obj.data "url")))
    (jGet obj.data "summary") (jGet obj.data "sub_type")
    (jGet obj.data "fileSize") (jGet obj.data "key")
    (jGet obj.data "emoji_id") (jGet obj.data "emoji_package_id")

def Record.fromObj (obj : SegmentLike) : Segment :=
  .Record (jsToString (jGet obj.data "file")) (jGet obj.data "file_size")
    (jGet obj.data "path")

def Video.fromObj (obj : SegmentLike) : Segment :=
  .Video (jsToString (jGet obj.data "file"))
    (.str (jsToString (jGet obj.data "url")))
    (jGet obj.data "file_size") (jGet obj.data "thumb")

def File.fromObj (obj : SegmentLike) : Segment :=
  .File (jsToString (jGet obj.data "file"))
    (.str (jsToString (jGet obj.data "file_id")))
    (jGet obj.data "file_size")

def Json.fromObj (obj : SegmentLike) : Segment :=
  .Json (jGet obj.data "data")

def Music.fromObj (obj : SegmentLike) : Segment :=
  .Music (jsToString (jGet obj.data "type"))
    (.str (jsToString (jGet obj.data "id")))
    (.str (jsToString (jGet obj.data "url")))
    (.str (jsToString (jGet obj.data "image")))
    (.str (jsToString (jGet obj.data "singer")))
    (.str (jsToString (jGet obj.data "title")))
    (.str (jsToString (jGet obj.data "content")))

def Forward.fromObj (obj : SegmentLike) : Segment :=
  .Forward (jsToString (jGet obj.data "id")) (jGet obj.data "content")

def Shake.fromObj (_obj : SegmentLike) : Segment :=
  .Shake

def Anonymous.fromObj (obj : SegmentLike) : Segment :=
  .Anonymous (jGet obj.data "ignore")

def Share.fromObj (obj : SegmentLike) : Segment :=
  .Share (jsToString (jGet obj.data "url")) (jsToString (jGet obj.data "title"))
    (.str (jsToString (jGet obj.data "content")))
    (.str (jsToString (jGet obj.data "image")))

def Contact.fromObj (obj : SegmentLike) : Segment :=
  .Contact (jsToString (jGet obj.data "type")) (jsToString (jGet obj.data "id"))

def Location.fromObj (obj : SegmentLike) : Segment :=
  .Location (jsToString (jGet obj.data "lat")) (jsToString (jGet obj.data "lon"))
    (.str (jsToString (jGet obj.data "title")))
    (.str (jsToString (jGet obj.data "content")))

def Xml.fromObj (obj : SegmentLike) : Segment :=
  .Xml (jsToString (jGet obj.data "data"))

def Unsupported.fromObj (obj : SegmentLike) : Segment :=
  .Unsupported obj.type obj.data

/-- The non-recursive arms of the fromArray dispatch switch: exact
string match on the type tag, default to Unsupported. The node arm
is handled in decodeElem below (it is the only recursive one); the
order change is harmless since the tags are distinct strings. -/
def segDispatch (obj : SegmentLike) : Segment :=
  if obj.type = .str "text" then Text.fromObj obj
  else if obj.type = .str "at" then At.fromObj obj
  else if obj.type = .str "reply" then Reply.fromObj obj
  else if obj.type = .str "face" then Face.fromObj obj
  else if obj.type = .str "mface" then MFace.fromObj obj
  else if obj.type = .str "dice" then Dice.fromObj obj
  else if obj.type = .str "rps" then RPS.fromObj obj
  else if obj.type = .str "poke" then Poke.fromObj obj
  else if obj.type = .str "image" then Image.fromObj obj
  else if obj.type = .str "record" then Record.fromObj obj
  else if obj.type = .str "video" then Video.fromObj obj
  else if obj.type = .str "anonymous" then Anonymous.fromObj obj
  else if obj.type = .str "share" then Share.fromObj obj
  else if obj.type = .str "contact" then Contact.fromObj obj
  else if obj.type = .str "location" then Location.fromObj obj
  else if obj.type = .str "music" then Music.fromObj obj
  else if obj.type = .str "forward" then Forward.fromObj obj
  else if obj.type = .str "xml" then Xml.fromObj obj
  else if obj.type = .str "json" then Json.fromObj obj
  else if obj.type = .str "file" then File.fromObj obj
  else if obj.type = .str "shake" then Shake.fromObj obj
  else Unsupported.fromObj obj

theorem sizeOf_jGet_le (v : JSVal) (k : String) : sizeOf (jGet v k) ≤ sizeOf v := by
  induction v with
  | objCons key val tl ih =>
      simp only [jGet]
      split
      · simp only [JSVal.objCons.sizeOf_spec]; omega
      · simp only [JSVal.objCons.sizeOf_spec]; omega
  | _ => simp only [jGet] <;> simp <;> omega

theorem sizeOf_jGet_lt (k : String) (w t : JSVal) (key : String) :
    sizeOf (jGet (JSVal.objCons k w t) key) < sizeOf (JSVal.objCons k w t) := by
  have h := sizeOf_jGet_le t key
  simp only [jGet]
  split <;> simp only [JSVal.objCons.sizeOf_spec] <;> omega

theorem jGet_str_objCons {v : JSVal} {key s : String}
    (h : jGet v key = JSVal.str s) : ∃ k w t, v = JSVal.objCons k w t := by
  cases v <;> simp [jGet] at h <;> exact ⟨_, _, _, rfl⟩

theorem sizeOf_toList_le (v : JSVal) : sizeOf v.toList ≤ sizeOf v := by
  induction v with
  | arrCons h t ih =>
      simp only [JSVal.toList, List.cons.sizeOf_spec, JSVal.arrCons.sizeOf_spec]
      omega
  | _ => simp only [JSVal.toList] <;> simp <;> omega

mutual

/-- Decoding of the raw message array, from Message.fromArray of the
source: each element is decoded independently by the dispatch switch. -/
def Message.fromArray (input : List JSVal) : List Segment :=
  input.attach.map (fun x => decodeElem x.1)
termination_by 2 * sizeOf input
decreasing_by
  have := List.sizeOf_lt_of_mem x.2
  omega

/-- Decoding of one raw element. The node arm recurses into the
embedded content array through Node.fromObj; every other type tag is
handled by the non-recursive dispatch above. -/
def decodeElem (v : JSVal) : Segment :=
  if h : jGet v "type" = .str "node" then
    Node.fromObj ⟨jGet v "type", jGet v "data"⟩
  else segDispatch ⟨jGet v "type", jGet v "data"⟩
termination_by 2 * sizeOf v
decreasing_by
  obtain ⟨k, w, t, hv⟩ := jGet_str_objCons h
  subst hv
  have := sizeOf_jGet_lt k w t "data"
  show 2 * sizeOf (jGet (JSVal.objCons k w t) "data") + 1 < 2 * sizeOf (JSVal.objCons k w t)
  omega

/-- Node.fromObj of the source: decodes the embedded content through
Message.fromArray. -/
def Node.fromObj (obj : SegmentLike) : Segment :=
  .Node (jsToString (jGet obj.data "user_id"))
    (jsToString (jGet obj.data "nickname"))
    (Message.fromArray (jGet obj.data "content").toList)
termination_by 2 * sizeOf obj.data + 1
decreasing_by
  have h1 := sizeOf_toList_le (jGet obj.data "content")
  have h2 := sizeOf_jGet_le obj.data "content"
  omega

end

mutual

/-- toObj of each segment class: the type tag and the in-memory data
object with its declared keys in declaration order (the source
returns this.data itself, whose keys are the constructor parameter
names). -/
def Segment.toObj : Segment → SegmentLike
  | .Text t => ⟨.str "text", .obj [("text", .str t)]⟩
  | .At qq => ⟨.str "at", .obj [("qq", .str qq)]⟩
  | .Reply i => ⟨.str "reply", .obj [("id", .str i)]⟩
  | .Face i raw resultId chainCount =>
      ⟨.str "face", .obj [("id", i), ("raw", raw), ("resultId", resultId), ("chainCount", chainCount)]⟩
  | .MFace a b key summary =>
      ⟨.str "mface", .obj [("emojiId", .str a), ("emojiPackageId", .str b), ("key", key), ("summary", summary)]⟩
  | .Dice r => ⟨.str "dice", .obj [("result", r)]⟩
  | .RPS r => ⟨.str "rps", .obj [("result", r)]⟩
  | .Poke t i => ⟨.str "poke", .obj [("type", .str t), ("id", .str i)]⟩
  | .Image f url summary subType fileSize key emojiId emojiPackageId =>
      ⟨.str "image", .obj [("file", .str f), ("url", url), ("summary", summary), ("subType", subType),
        ("fileSize", fileSize), ("key", key), ("emojiId", emojiId), ("emojiPackageId", emojiPackageId)]⟩
  | .Record f fs p => ⟨.str "record", .obj [("file", .str f), ("fileSize", fs), ("path", p)]⟩
  | .Video f u fs th => ⟨.str "video", .obj [("file", .str f), ("url", u), ("fileSize", fs), ("thumb", th)]⟩
  | .File f i fs => ⟨.str "file", .obj [("file", .str f), ("fileId", i), ("fileSize", fs)]⟩
  | .Json d => ⟨.str "json", .obj [("data", d)]⟩
  | .Music t i u im si ti co =>
      ⟨.str "music", .obj [("type", .str t), ("id", i), ("url", u), ("image", im), ("singer", si), ("title", ti), ("content", co)]⟩
  | .Forward i c => ⟨.str "forward", .obj [("id", .str i), ("content", c)]⟩
  | .Shake => ⟨.str "shake", .obj []⟩
  | .Anonymous ig => ⟨.str "anonymous", .obj [("ignore", ig)]⟩
  | .Share u t c im => ⟨.str "share", .obj [("url", .str u), ("title", .str t), ("content", c), ("image", im)]⟩
  | .Contact t i => ⟨.str "contact", .obj [("type", .str t), ("id", .str i)]⟩
  | .Location la lo ti co => ⟨.str "location", .obj [("lat", .str la), ("lon", .str lo), ("title", ti), ("content", co)]⟩
  | .Node u n c => ⟨.str "node", .obj [("userId", .str u), ("nickname", .str n), ("content", segListVal c)]⟩
  | .Xml d => ⟨.str "xml", .obj [("data", .str d)]⟩
  | .Unsupported ot d => ⟨ot, d⟩
termination_by s => 2 * sizeOf s

/-- A decoded child message viewed as a JS array value (the node data
object stores the Message array itself). -/
def segListVal : List Segment → JSVal
  | [] => .arrNil
  | s :: rest => .arrCons (segVal s) (segListVal rest)
termination_by l => 2 * sizeOf l

/-- One in-memory segment instance viewed as its observable
value shape, the object with its type and data properties. -/
def segVal (s : Segment) : JSVal :=
  .objCons "type" (Segment.toObj s).type (.objCons "data" (Segment.toObj s).data .objNil)
termination_by 2 * sizeOf s + 1

end

/-!
CQ-code parameter escaping, from the utils module. The escape regex
replaces each occurrence of one of the four special characters in a
single left-to-right pass; the unescape regex replaces each
occurrence of one of the four entities in a single left-to-right
pass, trying the alternatives in the written order at each position.
-/

/-- The replacement for one character under the escape switch. -/
def escChar (c : Char) : List Char :=
  if c = '[' then ['&', '#', '9', '1', ';']
  else if c = ']' then ['&', '#', '9', '3', ';']
  else if c = ',' then ['&', '#', '4', '4', ';']
  else if c = '&' then ['&', 'a', 'm', 'p', ';']
  else [c]

/-- escapeCQParam on the character sequence: every character is
replaced independently (the regex consumes it), so an ampersand
introduced by a replacement is never rescanned. -/
def escapeCQChars : List Char → List Char
  | [] => []
  | c :: rest => escChar c ++ escapeCQChars rest

/-- unescapeCQParam on the character sequence: at each position the
four entity alternatives are tried in regex order; on a match five
characters are consumed, otherwise one character is kept. -/
def unescapeCQChars : List Char → List Char
  | [] => []
  | c :: rest =>
    if (c :: rest).take 5 = ['&', '#', '9', '1', ';'] then
      '[' :: unescapeCQChars ((c :: rest).drop 5)
    else if (c :: rest).take 5 = ['&', '#', '9', '3', ';'] then
      ']' :: unescapeCQChars ((c :: rest).drop 5)
    else if (c :: rest).take 5 = ['&', '#', '4', '4', ';'] then
      ',' :: unescapeCQChars ((c :: rest).drop 5)
    else if (c :: rest).take 5 = ['&', 'a', 'm', 'p', ';'] then
      '&' :: unescapeCQChars ((c :: rest).drop 5)
    else c :: unescapeCQChars rest
termination_by l => l.length
decreasing_by all_goals simp <;> omega

/-- escapeCQParam of the source, on Lean strings. -/
def escapeCQParam (s : String) : String :=
  ⟨escapeCQChars s.data⟩

/-- unescapeCQParam of the source, on Lean strings. -/
def unescapeCQParam (s : String) : String :=
  ⟨unescapeCQChars s.data⟩


/-!
RPC correlator, from _callApiWithWebSocket: the message listener
installed for a pending call inspects each parsed inbound frame.
-/

/-- Effect of one inbound frame on a pending call. -/
inductive WsCallOutcome where
  | rejected
  | resolved (data : JSVal)
  | waiting
deriving DecidableEq, Repr

/-- The listener body: the four response fields are checked against
undefined (so a retcode of literal 0 passes), then the echo is
compared with the pending call's token; a frame failing the field
check rejects the pending promise, an echo mismatch leaves the call
waiting for the next frame or the timeout. -/
def handleApiResponseFrame (echo : String) (frame : JSVal) : WsCallOutcome :=
  if jGet frame "status" = .undefined ∨ jGet frame "retcode" = .undefined ∨
      jGet frame "data" = .undefined ∨ jGet frame "echo" = .undefined then
    .rejected
  else if jGet frame "echo" = .str echo then
    .resolved (jGet frame "data")
  else
    .waiting

/-!
Inbound-connection authentication, from the connection callback of
_startWebsocketServer together with expectedAccessToken of utils.
-/

/-- expectedAccessToken of the source. -/
def expectedAccessToken (token expected : String) : Bool :=
  token == "Bearer " ++ expected

/-- Result of the authentication block for one connection attempt. -/
inductive AuthDecision where
  | accepted
  | rejectedClose (code : Nat) (reason : String)
deriving DecidableEq, Repr

/-- Truthiness of an optional string, as JS tests a possibly absent
header or config entry: absent or empty is falsy. -/
def truthyStr : Option String → Bool
  | none => false
  | some s => s != ""

/-- The authentication block: accessToken is the configured token
(absent when not configured), token the authorization header of the
request (absent when not sent). Presence on both sides is tested by
JS truthiness. -/
def authorizeConnection (accessToken : Option String) (token : Option String) : AuthDecision :=
  if ¬ truthyStr token then
    if truthyStr accessToken then .rejectedClose 1008 "no access token provided"
    else .accepted
  else
    if truthyStr accessToken ∧ ¬ expectedAccessToken (token.getD "") (accessToken.getD "") then
      .rejectedClose 1008 "invalid access token"
    else if ¬ truthyStr accessToken then
      .rejectedClose 1008 "no access token expected"
    else .accepted

/-!
Event catalog and decoder, from the factory module. Events carry the
constructor arguments their classes receive, in order, as raw JS
values (embedded messages are decoded through Message.fromArray).
An unregistered tag at any dispatch level reaches the corresponding
default handler, which throws.
-/

/-- A decode failure thrown by the factory; each one carries the
offending tag and the raw payload, as the thrown message string
interpolates both. -/
inductive DecodeError where
  | unhandledMessageType (tag : JSVal) (payload : JSVal)
  | unhandledNoticeType (tag : JSVal) (payload : JSVal)
  | unhandledNotifySubType (tag : JSVal) (payload : JSVal)
  | unhandledRequestType (tag : JSVal) (payload : JSVal)
  | unhandledMetaEventType (tag : JSVal) (payload : JSVal)
  | unhandledPostType (tag : JSVal) (payload : JSVal)
  | invalidPokeNotify (payload : JSVal)
deriving DecidableEq, Repr

/-- One concrete event shape per event class of the catalog. -/
inductive OBEvent where
  | privateMessage (time selfId messageType subType messageId userId : JSVal)
      (message : List Segment) (rawMessage font sender targetId tempSource : JSVal)
  | groupMessage (time selfId messageType subType messageId groupId userId anonymous : JSVal)
      (message : List Segment) (rawMessage font sender : JSVal)
  | friendPoke (time selfId userId targetId rawInfo senderId : JSVal)
  | groupPoke (time selfId userId targetId rawInfo groupId : JSVal)
  | profileLike (time selfId operatorId operatorNick times : JSVal)
  | inputStatus (time selfId statusText eventType userId groupId : JSVal)
  | luckyKing (time selfId groupId userId targetId : JSVal)
  | honor (time selfId groupId honorType userId : JSVal)
  | groupName (time selfId nameNew groupId userId : JSVal)
  | groupTitle (time selfId title groupId userId : JSVal)
  | groupUpload (time selfId groupId userId file : JSVal)
  | groupAdmin (time selfId groupId userId subType : JSVal)
  | groupDecrease (time selfId groupId userId operatorId subType : JSVal)
  | groupIncrease (time selfId groupId userId operatorId subType : JSVal)
  | groupBan (time selfId groupId userId operatorId duration subType : JSVal)
  | friendAdd (time selfId userId : JSVal)
  | groupRecall (time selfId operatorId messageId groupId userId : JSVal)
  | friendRecall (time selfId userId messageId : JSVal)
  | groupMsgEmojiLike (time selfId groupId userId messageId likes : JSVal)
  | groupEssence (time selfId groupId userId messageId senderId operatorId subType : JSVal)
  | groupCard (time selfId groupId userId cardNew cardOld : JSVal)
  | friendRequest (time selfId requestType flag userId comment : JSVal)
  | groupRequest (time selfId requestType flag userId comment subType groupId : JSVal)
  | lifecycleMeta (time selfId metaEventType subType : JSVal)
  | heartbeatMeta (time selfId metaEventType status interval : JSVal)
deriving Repr

/-- The property names every plain JS object inherits from
Object.prototype: a dispatch-table lookup with one of these keys
finds the inherited member even though no handler was registered
under it. -/
def objectProtoKeys : List String :=
  ["constructor", "hasOwnProperty", "isPrototypeOf", "propertyIsEnumerable",
    "toLocaleString", "toString", "valueOf", "__defineGetter__", "__defineSetter__",
    "__lookupGetter__", "__lookupSetter__", "__proto__"]

/-- ToPropertyKey of a tag value: the JS string coercion applied to
a value used to index a dispatch table (non-string tags are coerced,
so an array like one holding "group" indexes as "group"). -/
def dispatchKey (tag : JSVal) : String := jsToString tag

/-- A dispatch-table invocation that did not throw an unhandled-tag
failure: either a registered handler built an event of the catalog,
or the key named an inherited Object.prototype member, which is
truthy, so the code invokes it instead of the default handler; that
invocation yields a junk non-event value or throws a TypeError,
never an event of the catalog and never an unhandled-tag failure. -/
inductive Dispatched where
  | event (e : OBEvent)
  | protoArtifact (key : String)
deriving Repr

/-- The message_type dispatch table with its default handler: own
registered keys win, then inherited Object.prototype members, and
only a key found nowhere on the table reaches the default throw. -/
def messageEventDataHandler (obj : JSVal) : Except DecodeError Dispatched :=
  if dispatchKey (jGet obj "message_type") = "private" then
    .ok (.event (.privateMessage (jGet obj "time") (jGet obj "self_id") (jGet obj "message_type")
      (jGet obj "sub_type") (jGet obj "message_id") (jGet obj "user_id")
      (Message.fromArray (jGet obj "message").toList) (jGet obj "raw_message")
      (jGet obj "font") (jGet obj "sender") (jGet obj "target_id") (jGet obj "temp_source")))
  else if dispatchKey (jGet obj "message_type") = "group" then
    .ok (.event (.groupMessage (jGet obj "time") (jGet obj "self_id") (jGet obj "message_type")
      (jGet obj "sub_type") (jGet obj "message_id") (jGet obj "group_id") (jGet obj "user_id")
      (jGet obj "anonymous") (Message.fromArray (jGet obj "message").toList)
      (jGet obj "raw_message") (jGet obj "font") (jGet obj "sender")))
  else if dispatchKey (jGet obj "message_type") ∈ objectProtoKeys then
    .ok (.protoArtifact (dispatchKey (jGet obj "message_type")))
  else .error (.unhandledMessageType (jGet obj "message_type") obj)

/-- The notify sub_type dispatch table with its default handler; the
poke arm further distinguishes the friend and the group shape by the
truthiness of sender_id and group_id. Inherited Object.prototype
keys bypass the default handler as in every table. -/
def notifyNoticeEventDataHandler (obj : JSVal) : Except DecodeError Dispatched :=
  if dispatchKey (jGet obj "sub_type") = "poke" then
    if truthy (jGet obj "sender_id") then
      .ok (.event (.friendPoke (jGet obj "time") (jGet obj "self_id") (jGet obj "user_id")
        (jGet obj "target_id") (jGet obj "raw_info") (jGet obj "sender_id")))
    else if truthy (jGet obj "group_id") then
      .ok (.event (.groupPoke (jGet obj "time") (jGet obj "self_id") (jGet obj "user_id")
        (jGet obj "target_id") (jGet obj "raw_info") (jGet obj "group_id")))
    else .error (.invalidPokeNotify obj)
  else if dispatchKey (jGet obj "sub_type") = "profile_like" then
    .ok (.event (.profileLike (jGet obj "time") (jGet obj "self_id") (jGet obj "operator_id")
      (jGet obj "operator_nick") (jGet obj "times")))
  else if dispatchKey (jGet obj "sub_type") = "input_status" then
    .ok (.event (.inputStatus (jGet obj "time") (jGet obj "self_id") (jGet obj "status_text")
      (jGet obj "event_type") (jGet obj "user_id") (jGet obj "group_id")))
  else if dispatchKey (jGet obj "sub_type") = "lucky_king" then
    .ok (.event (.luckyKing (jGet obj "time") (jGet obj "self_id") (jGet obj "group_id")
      (jGet obj "user_id") (jGet obj "target_id")))
  else if dispatchKey (jGet obj "sub_type") = "honor" then
    .ok (.event (.honor (jGet obj "time") (jGet obj "self_id") (jGet obj "group_id")
      (jGet obj "honor_type") (jGet obj "user_id")))
  else if dispatchKey (jGet obj "sub_type") = "group_name" then
    .ok (.event (.groupName (jGet obj "time") (jGet obj "self_id") (jGet obj "name_new")
      (jGet obj "group_id") (jGet obj "user_id")))
  else if dispatchKey (jGet obj "sub_type") = "title" then
    .ok (.event (.groupTitle (jGet obj "time") (jGet obj "self_id") (jGet obj "title")
      (jGet obj "group_id") (jGet obj "user_id")))
  else if dispatchKey (jGet obj "sub_type") ∈ objectProtoKeys then
    .ok (.protoArtifact (dispatchKey (jGet obj "sub_type")))
  else .error (.unhandledNotifySubType (jGet obj "sub_type") obj)

/-- The notice_type dispatch table with its default handler. The
bot_offline notice kind of the catalog is not registered here, as in
the source table; inherited Object.prototype keys bypass the default
handler. -/
def noticeEventDataHandler (obj : JSVal) : Except DecodeError Dispatched :=
  if dispatchKey (jGet obj "notice_type") = "group_upload" then
    .ok (.event (.groupUpload (jGet obj "time") (jGet obj "self_id") (jGet obj "group_id")
      (jGet obj "user_id") (jGet obj "file")))
  else if dispatchKey (jGet obj "notice_type") = "group_admin" then
    .ok (.event (.groupAdmin (jGet obj "time") (jGet obj "self_id") (jGet obj "group_id")
      (jGet obj "user_id") (jGet obj "sub_type")))
  else if dispatchKey (jGet obj "notice_type") = "group_decrease" then
    .ok (.event (.groupDecrease (jGet obj "time") (jGet obj "self_id") (jGet obj "group_id")
      (jGet obj "user_id") (jGet obj "operator_id") (jGet obj "sub_type")))
  else if dispatchKey (jGet obj "notice_type") = "group_increase" then
    .ok (.event (.groupIncrease (jGet obj "time") (jGet obj "self_id") (jGet obj "group_id")
      (jGet obj "user_id") (jGet obj "operator_id") (jGet obj "sub_type")))
  else if dispatchKey (jGet obj "notice_type") = "group_ban" then
    .ok (.event (.groupBan (jGet obj "time") (jGet obj "self_id") (jGet obj "group_id")
      (jGet obj "user_id") (jGet obj "operator_id") (jGet obj "duration") (jGet obj "sub_type")))
  else if dispatchKey (jGet obj "notice_type") = "friend_add" then
    .ok (.event (.friendAdd (jGet obj "time") (jGet obj "self_id") (jGet obj "user_id")))
  else if dispatchKey (jGet obj "notice_type") = "group_recall" then
    .ok (.event (.groupRecall (jGet obj "time") (jGet obj "self_id") (jGet obj "operator_id")
      (jGet obj "message_id") (jGet obj "group_id") (jGet obj "user_id")))
  else if dispatchKey (jGet obj "notice_type") = "friend_recall" then
    .ok (.event (.friendRecall (jGet obj "time") (jGet obj "self_id") (jGet obj "user_id")
      (jGet obj "message_id")))
  else if dispatchKey (jGet obj "notice_type") = "group_msg_emoji_like" then
    .ok (.event (.groupMsgEmojiLike (jGet obj "time") (jGet obj "self_id") (jGet obj "group_id")
      (jGet obj "user_id") (jGet obj "message_id") (jGet obj "likes")))
  else if dispatchKey (jGet obj "notice_type") = "essence" then
    .ok (.event (.groupEssence (jGet obj "time") (jGet obj "self_id") (jGet obj "group_id")
      (jGet obj "user_id") (jGet obj "message_id") (jGet obj "sender_id")
      (jGet obj "operator_id") (jGet obj "sub_type")))
  else if dispatchKey (jGet obj "notice_type") = "group_card" then
    .ok (.event (.groupCard (jGet obj "time") (jGet obj "self_id") (jGet obj "group_id")
      (jGet obj "user_id") (jGet obj "card_new") (jGet obj "card_old")))
  else if dispatchKey (jGet obj "notice_type") = "notify" then
    notifyNoticeEventDataHandler obj
  else if dispatchKey (jGet obj "notice_type") ∈ objectProtoKeys then
    .ok (.protoArtifact (dispatchKey (jGet obj "notice_type")))
  else .error (.unhandledNoticeType (jGet obj "notice_type") obj)

/-- The request_type dispatch table with its default handler;
inherited Object.prototype keys bypass the default handler. -/
def requestEventDataHandler (obj : JSVal) : Except DecodeError Dispatched :=
  if dispatchKey (jGet obj "request_type") = "friend" then
    .ok (.event (.friendRequest (jGet obj "time") (jGet obj "self_id") (jGet obj "request_type")
      (jGet obj "flag") (jGet obj "user_id") (jGet obj "comment")))
  else if dispatchKey (jGet obj "request_type") = "group" then
    .ok (.event (.groupRequest (jGet obj "time") (jGet obj "self_id") (jGet obj "request_type")
      (jGet obj "flag") (jGet obj "user_id") (jGet obj "comment") (jGet obj "sub_type")
      (jGet obj "group_id")))
  else if dispatchKey (jGet obj "request_type") ∈ objectProtoKeys then
    .ok (.protoArtifact (dispatchKey (jGet obj "request_type")))
  else .error (.unhandledRequestType (jGet obj "request_type") obj)

/-- The meta_event_type dispatch table with its default handler;
inherited Object.prototype keys bypass the default handler. -/
def metaEventDataHandler (obj : JSVal) : Except DecodeError Dispatched :=
  if dispatchKey (jGet obj "meta_event_type") = "lifecycle" then
    .ok (.event (.lifecycleMeta (jGet obj "time") (jGet obj "self_id") (jGet obj "meta_event_type")
      (jGet obj "sub_type")))
  else if dispatchKey (jGet obj "meta_event_type") = "heartbeat" then
    .ok (.event (.heartbeatMeta (jGet obj "time") (jGet obj "self_id") (jGet obj "meta_event_type")
      (jGet obj "status") (jGet obj "interval")))
  else if dispatchKey (jGet obj "meta_event_type") ∈ objectProtoKeys then
    .ok (.protoArtifact (dispatchKey (jGet obj "meta_event_type")))
  else .error (.unhandledMetaEventType (jGet obj "meta_event_type") obj)

/-- eventFactory of the source, on the parsed JSON object: a frame
in which time, self_id or post_type is falsy is not an event and is
skipped (ok none); otherwise the post_type table lookup runs with
the same own-key, inherited-key, default precedence, and a thrown
decode failure is the error result. -/
def eventFactory (obj : JSVal) : Except DecodeError (Option Dispatched) :=
  if ¬ truthy (jGet obj "time") ∨ ¬ truthy (jGet obj "self_id") ∨
      ¬ truthy (jGet obj "post_type") then
    .ok none
  else if dispatchKey (jGet obj "post_type") = "message" then
    (messageEventDataHandler obj).map some
  else if dispatchKey (jGet obj "post_type") = "notice" then
    (noticeEventDataHandler obj).map some
  else if dispatchKey (jGet obj "post_type") = "request" then
    (requestEventDataHandler obj).map some
  else if dispatchKey (jGet obj "post_type") = "meta_event" then
    (metaEventDataHandler obj).map some
  else if dispatchKey (jGet obj "post_type") ∈ objectProtoKeys then
    .ok (some (.protoArtifact (dispatchKey (jGet obj "post_type"))))
  else .error (.unhandledPostType (jGet obj "post_type") obj)

/-!
Connection registry, from the connections map of the adapter: self
id keys (the runtime value of event.selfId) bound to transport
handles, here abstract numeric connection identifiers, in insertion
order as a JS Map holds them.
-/

abbrev Registry := List (JSVal × Nat)

/-- JS Map.set: an existing key keeps its position and gets the new
value, a new key is appended. -/
def mapSet (reg : Registry) (k : JSVal) (conn : Nat) : Registry :=
  if reg.any (fun p => p.1 == k) then
    reg.map (fun p => if p.1 = k then (k, conn) else p)
  else reg ++ [(k, conn)]

/-- The registry effect of _onMessageReceived for one inbound frame
on one connection: a thrown failure (a decode failure or the
TypeError of an invoked inherited member) is caught and logged, a
skipped frame is ignored, a junk value produced by an inherited
member is never an instance of LifecycleMetaEvent, and only a
lifecycle meta-event whose subType is connect stores the delivering
connection under the event self id. -/
def registryAfterMessage (reg : Registry) (conn : Nat) (obj : JSVal) : Registry :=
  match eventFactory obj with
  | .error _ => reg
  | .ok none => reg
  | .ok (some (.protoArtifact _)) => reg
  | .ok (some (.event (.lifecycleMeta _ selfId _ subType))) =>
      if subType = .str "connect" then mapSet reg selfId conn else reg
  | .ok (some (.event _)) => reg

/-- The registry effect of _onConnectionClosed: every entry whose
stored connection is the closed one is deleted. -/
def registryAfterClose (reg : Registry) (conn : Nat) : Registry :=
  reg.filter (fun p => p.2 != conn)

/-- The keys currently bound in the registry. -/
def regKeys (reg : Registry) : List JSVal := reg.map Prod.fst

/-- JS Map.get on the registry: the value stored under a key. -/
def regLookup (reg : Registry) (k : JSVal) : Option Nat :=
  match reg with
  | [] => none
  | (k2, v) :: rest => if k2 = k then some v else regLookup rest k

/-- Whether a decoded event is the lifecycle connect meta-event that
the message handler filters for. -/
def isLifecycleConnect : OBEvent → Bool
  | .lifecycleMeta _ _ _ subType => subType == .str "connect"
  | _ => false

/-!
Helper lemmas shared by the claim theorems.
-/

theorem unescape_escape_chars (s : List Char) :
    unescapeCQChars (escapeCQChars s) = s := by
  induction s with
  | nil => simp [escapeCQChars, unescapeCQChars]
  | cons c rest ih =>
    rcases eq_or_ne c '[' with rfl | h1
    · simp [escapeCQChars, escChar, unescapeCQChars, ih]
    rcases eq_or_ne c ']' with rfl | h2
    · simp [escapeCQChars, escChar, unescapeCQChars, ih]
    rcases eq_or_ne c ',' with rfl | h3
    · simp [escapeCQChars, escChar, unescapeCQChars, ih]
    rcases eq_or_ne c '&' with rfl | h4
    · simp [escapeCQChars, escChar, unescapeCQChars, ih]
    · simp [escapeCQChars, escChar, h1, h2, h3, h4, unescapeCQChars, ih]

theorem fromArray_eq_map (input : List JSVal) :
    Message.fromArray input = input.map decodeElem := by
  rw [Message.fromArray]
  simp [List.attach_map_coe]

theorem unescape_escape_str (s : String) :
    unescapeCQParam (escapeCQParam s) = s := by
  cases s with
  | mk data =>
    show String.mk (unescapeCQChars (escapeCQChars data)) = String.mk data
    rw [unescape_escape_chars]

/-- C3: for every string, unescapeCQParam inverts escapeCQParam; the
escape maps each of the four special characters to its entity
without double-escaping the introduced ampersand, and the unescape
reverses exactly those four entities. -/
theorem c3_cq_escape_roundtrip :
    (∀ s : String, unescapeCQParam (escapeCQParam s) = s) ∧
    escapeCQParam "&" = "&amp;" ∧ escapeCQParam "[" = "&#91;" ∧
    escapeCQParam "]" = "&#93;" ∧ escapeCQParam "," = "&#44;" ∧
    escapeCQParam "&[]," = "&amp;&#91;&#93;&#44;" ∧
    unescapeCQParam "&amp;" = "&" ∧ unescapeCQParam "&#91;" = "[" ∧
    unescapeCQParam "&#93;" = "]" ∧ unescapeCQParam "&#44;" = "," := by
  refine ⟨unescape_escape_str, by decide, by decide, by decide, by decide, by decide, ?_, ?_, ?_, ?_⟩
  · rw [show ("&amp;" : String) = escapeCQParam "&" by decide]
    exact unescape_escape_str "&"
  · rw [show ("&#91;" : String) = escapeCQParam "[" by decide]
    exact unescape_escape_str "["
  · rw [show ("&#93;" : String) = escapeCQParam "]" by decide]
    exact unescape_escape_str "]"
  · rw [show ("&#44;" : String) = escapeCQParam "," by decide]
    exact unescape_escape_str ","

/-- C6: a valid JSON frame missing time, self_id or post_type is not
an event: the factory returns no event and raises no error. -/
theorem c6_missing_header_skips (obj : JSVal)
    (h : jGet obj "time" = .undefined ∨ jGet obj "self_id" = .undefined ∨
      jGet obj "post_type" = .undefined) :
    eventFactory obj = .ok none := by
  rcases h with h | h | h <;> simp [eventFactory, h, truthy]

/-- C6 witness: a frame carrying only self_id is skipped. -/
theorem c6_missing_header_skips_witness :
    eventFactory (.obj [("self_id", .str "1")]) = .ok none :=
  c6_missing_header_skips _ (Or.inl (by decide))

/-- C10: a frame whose time, self_id and post_type are present but
one of them falsy (such as a zero time or an empty self id) is
treated exactly like a frame missing the field: no event, no error,
because presence is tested by truthiness. -/
theorem c10_falsy_header_skips (obj : JSVal)
    (hp : jGet obj "time" ≠ .undefined ∧ jGet obj "self_id" ≠ .undefined ∧
      jGet obj "post_type" ≠ .undefined)
    (hf : truthy (jGet obj "time") = false ∨ truthy (jGet obj "self_id") = false ∨
      truthy (jGet obj "post_type") = false) :
    eventFactory obj = .ok none := by
  rcases hf with h | h | h <;> simp [eventFactory, h]

/-- C10 witness: a frame with a present but zero time is skipped. -/
theorem c10_falsy_header_skips_witness :
    eventFactory (.obj [("time", .num 0), ("self_id", .str "x"), ("post_type", .str "message")]) = .ok none :=
  c10_falsy_header_skips _ (by refine ⟨?_, ?_, ?_⟩ <;> decide) (Or.inl (by decide))

/-- C4: a response frame carrying all four fields with retcode the
integer 0 and a matching echo resolves the pending call with the
frame data: the undefined check never treats the 0 as absent. -/
theorem c4_retcode_zero_resolves (echo : String) (frame : JSVal)
    (hs : jGet frame "status" ≠ .undefined)
    (hr : jGet frame "retcode" = .num 0)
    (hd : jGet frame "data" ≠ .undefined)
    (he : jGet frame "echo" = .str echo) :
    handleApiResponseFrame echo frame = .resolved (jGet frame "data") := by
  simp [handleApiResponseFrame, hs, hr, hd, he]

/-- C4 witness: a concrete success frame with retcode 0 resolves. -/
theorem c4_retcode_zero_resolves_witness :
    handleApiResponseFrame "e1"
      (.obj [("status", .str "ok"), ("retcode", .num 0), ("data", .objNil), ("echo", .str "e1")]) =
      .resolved .objNil :=
  c4_retcode_zero_resolves "e1" _ (by decide) (by decide) (by decide) (by decide)

/-- C2 fails on the code: a frame that does not carry all four
response fields (here an ordinary event frame arriving while the
call is pending) rejects the pending call instead of leaving it
awaiting; only a complete frame with a non-matching echo is left
waiting as the claim describes. -/
theorem c2_incomplete_frame_rejects_pending :
    handleApiResponseFrame "e1"
      (.obj [("time", .num 1), ("self_id", .num 10), ("post_type", .str "message")]) = .rejected ∧
    handleApiResponseFrame "e1"
      (.obj [("status", .str "ok"), ("retcode", .num 0), ("data", .objNil), ("echo", .str "other")]) = .waiting := by
  constructor <;> decide

/-- C9 fails on the code: decoding an image element whose optional
fields are absent stores the string "undefined" (the String() image
of undefined) as the url, not an absent value. -/
theorem c9_image_decode_url_undefined_string :
    Image.fromObj ⟨.str "image", .obj [("file", .str "f")]⟩ =
      Segment.Image "f" (.str "undefined") .undefined .undefined .undefined .undefined .undefined .undefined ∧
    Segment.Image "f" (JSVal.str "undefined") .undefined .undefined .undefined .undefined .undefined .undefined ≠
      Segment.Image "f" .undefined .undefined .undefined .undefined .undefined .undefined .undefined := by
  constructor
  · simp [Image.fromObj, jGet, JSVal.obj, jsToString]
  · simp

/-- C1 fails on the code: for the Image segment with all optional
fields absent, decoding its own encoding does not return the
original segment: the decoded url is the string "undefined". -/
theorem c1_image_roundtrip_fails :
    Message.fromArray [segVal (Segment.Image "f" .undefined .undefined .undefined .undefined .undefined .undefined .undefined)] =
      [Segment.Image "f" (.str "undefined") .undefined .undefined .undefined .undefined .undefined .undefined] ∧
    Message.fromArray [segVal (Segment.Image "f" .undefined .undefined .undefined .undefined .undefined .undefined .undefined)] ≠
      [Segment.Image "f" .undefined .undefined .undefined .undefined .undefined .undefined .undefined] := by
  have h : Message.fromArray [segVal (Segment.Image "f" .undefined .undefined .undefined .undefined .undefined .undefined .undefined)] =
      [Segment.Image "f" (.str "undefined") .undefined .undefined .undefined .undefined .undefined .undefined] := by
    rw [fromArray_eq_map]
    simp [decodeElem, segDispatch, segVal, Segment.toObj, Image.fromObj, jGet, JSVal.obj, jsToString]
  refine ⟨h, ?_⟩
  rw [h]
  simp

/-- C5 fails as stated on the program: for the valid event frame
whose post_type is toString, the table lookup finds the inherited
Object.prototype.toString member (truthy) and invokes it instead of
falling through to the unhandled-post_type failure, so the factory
neither raises the unrecognized failure nor builds an event of the
catalog. -/
theorem c5_proto_key_counterexample :
    eventFactory (.obj [("time", .num 1), ("self_id", .str "1"), ("post_type", .str "toString")]) =
      .ok (some (.protoArtifact "toString")) ∧
    eventFactory (.obj [("time", .num 1), ("self_id", .str "1"), ("post_type", .str "toString")]) ≠
      .error (.unhandledPostType (.str "toString")
        (.obj [("time", .num 1), ("self_id", .str "1"), ("post_type", .str "toString")])) := by
  have h1 : eventFactory (.obj [("time", .num 1), ("self_id", .str "1"), ("post_type", .str "toString")]) =
      .ok (some (.protoArtifact "toString")) := rfl
  refine ⟨h1, ?_⟩
  rw [h1]
  simp

/-- C5 as amended: for a frame with truthy time, self_id and
post_type, a tag whose property-key coercion at any dispatch level
(post_type; message_type, notice_type, request_type,
meta_event_type; or sub_type for the notify notice kind) is neither
a registered table key nor the name of an inherited Object.prototype
property yields the distinct unrecognized failure of that level,
carrying the offending tag and the raw payload, and never an
event. -/
theorem c5_unrecognized_tag_fails (obj : JSVal)
    (ht : truthy (jGet obj "time") = true)
    (hsid : truthy (jGet obj "self_id") = true)
    (hpt : truthy (jGet obj "post_type") = true) :
    ((dispatchKey (jGet obj "post_type") ∉ (["message", "notice", "request", "meta_event"] : List String) ∧
        dispatchKey (jGet obj "post_type") ∉ objectProtoKeys) →
      eventFactory obj = .error (.unhandledPostType (jGet obj "post_type") obj)) ∧
    ((dispatchKey (jGet obj "post_type") = "message" ∧
        dispatchKey (jGet obj "message_type") ∉ (["private", "group"] : List String) ∧
        dispatchKey (jGet obj "message_type") ∉ objectProtoKeys) →
      eventFactory obj = .error (.unhandledMessageType (jGet obj "message_type") obj)) ∧
    ((dispatchKey (jGet obj "post_type") = "notice" ∧
        dispatchKey (jGet obj "notice_type") ∉ (["group_upload", "group_admin", "group_decrease",
          "group_increase", "group_ban", "friend_add", "group_recall", "friend_recall",
          "group_msg_emoji_like", "essence", "group_card", "notify"] : List String) ∧
        dispatchKey (jGet obj "notice_type") ∉ objectProtoKeys) →
      eventFactory obj = .error (.unhandledNoticeType (jGet obj "notice_type") obj)) ∧
    ((dispatchKey (jGet obj "post_type") = "notice" ∧
        dispatchKey (jGet obj "notice_type") = "notify" ∧
        dispatchKey (jGet obj "sub_type") ∉ (["poke", "profile_like", "input_status",
          "lucky_king", "honor", "group_name", "title"] : List String) ∧
        dispatchKey (jGet obj "sub_type") ∉ objectProtoKeys) →
      eventFactory obj = .error (.unhandledNotifySubType (jGet obj "sub_type") obj)) ∧
    ((dispatchKey (jGet obj "post_type") = "request" ∧
        dispatchKey (jGet obj "request_type") ∉ (["friend", "group"] : List String) ∧
        dispatchKey (jGet obj "request_type") ∉ objectProtoKeys) →
      eventFactory obj = .error (.unhandledRequestType (jGet obj "request_type") obj)) ∧
    ((dispatchKey (jGet obj "post_type") = "meta_event" ∧
        dispatchKey (jGet obj "meta_event_type") ∉ (["lifecycle", "heartbeat"] : List String) ∧
        dispatchKey (jGet obj "meta_event_type") ∉ objectProtoKeys) →
      eventFactory obj = .error (.unhandledMetaEventType (jGet obj "meta_event_type") obj)) := by
  refine ⟨?_, ?_, ?_, ?_, ?_, ?_⟩
  · rintro ⟨hmem, hproto⟩
    simp only [List.mem_cons, List.not_mem_nil, or_false, not_or] at hmem
    obtain ⟨h1, h2, h3, h4⟩ := hmem
    simp [eventFactory, ht, hsid, hpt, h1, h2, h3, h4, hproto]
  · rintro ⟨h1, hmem, hproto⟩
    simp only [List.mem_cons, List.not_mem_nil, or_false, not_or] at hmem
    obtain ⟨m1, m2⟩ := hmem
    simp [eventFactory, messageEventDataHandler, Except.map, ht, hsid, hpt, h1, m1, m2, hproto]
  · rintro ⟨h1, hmem, hproto⟩
    simp only [List.mem_cons, List.not_mem_nil, or_false, not_or] at hmem
    obtain ⟨m1, m2, m3, m4, m5, m6, m7, m8, m9, m10, m11, m12⟩ := hmem
    simp [eventFactory, noticeEventDataHandler, Except.map, ht, hsid, hpt, h1,
      m1, m2, m3, m4, m5, m6, m7, m8, m9, m10, m11, m12, hproto]
  · rintro ⟨h1, h2, hmem, hproto⟩
    simp only [List.mem_cons, List.not_mem_nil, or_false, not_or] at hmem
    obtain ⟨m1, m2, m3, m4, m5, m6, m7⟩ := hmem
    simp [eventFactory, noticeEventDataHandler, notifyNoticeEventDataHandler, Except.map,
      ht, hsid, hpt, h1, h2, m1, m2, m3, m4, m5, m6, m7, hproto]
  · rintro ⟨h1, hmem, hproto⟩
    simp only [List.mem_cons, List.not_mem_nil, or_false, not_or] at hmem
    obtain ⟨m1, m2⟩ := hmem
    simp [eventFactory, requestEventDataHandler, Except.map, ht, hsid, hpt, h1, m1, m2, hproto]
  · rintro ⟨h1, hmem, hproto⟩
    simp only [List.mem_cons, List.not_mem_nil, or_false, not_or] at hmem
    obtain ⟨m1, m2⟩ := hmem
    simp [eventFactory, metaEventDataHandler, Except.map, ht, hsid, hpt, h1, m1, m2, hproto]

/-- C5 witness: a notice frame with notice_type unknown_future_type
fails with the unrecognized-notice-type failure carrying the tag and
the payload. -/
theorem c5_unrecognized_tag_fails_witness :
    eventFactory (.obj [("time", .num 1), ("self_id", .str "10"), ("post_type", .str "notice"),
        ("notice_type", .str "unknown_future_type")]) =
      .error (.unhandledNoticeType (.str "unknown_future_type")
        (.obj [("time", .num 1), ("self_id", .str "10"), ("post_type", .str "notice"),
          ("notice_type", .str "unknown_future_type")])) := by
  have h := (c5_unrecognized_tag_fails
    (.obj [("time", .num 1), ("self_id", .str "10"), ("post_type", .str "notice"),
      ("notice_type", .str "unknown_future_type")])
    (by decide) (by decide) (by decide)).2.2.1
  exact h ⟨by decide, by decide, by decide⟩

theorem bearer_ne_empty (t : String) : "Bearer " ++ t ≠ "" := by
  intro h
  have hlen := congrArg String.length h
  simp [String.length_append] at hlen
  exact absurd hlen.1 (by decide)

/-- C7 counterexample: with no access token configured, a connection
that presents an Authorization header with the empty string as value
is accepted, while the claim requires any presented header to be
rejected with close code 1008 when no token is configured (presence
is tested by truthiness, so an empty header reads as absent). -/
theorem c7_empty_header_accepted_counterexample :
    authorizeConnection none (some "") = .accepted := by decide

/-- C7 as amended: with configured and presented read through JS
truthiness (an empty configured token counts as not configured, an
empty header as not presented): a configured token with a missing or
non-matching header is rejected with close code 1008; an unconfigured
token with a presented header is rejected with close code 1008; an
unconfigured token with no presented header is accepted; and the
exact header Bearer plus the configured token is accepted. -/
theorem c7_auth_decision (cfg hdr : Option String) :
    (truthyStr cfg = true →
      (truthyStr hdr = false ∨ hdr.getD "" ≠ "Bearer " ++ cfg.getD "") →
      ∃ r, authorizeConnection cfg hdr = .rejectedClose 1008 r) ∧
    (truthyStr cfg = false → truthyStr hdr = true →
      authorizeConnection cfg hdr = .rejectedClose 1008 "no access token expected") ∧
    (truthyStr cfg = false → truthyStr hdr = false →
      authorizeConnection cfg hdr = .accepted) ∧
    (truthyStr cfg = true → hdr = some ("Bearer " ++ cfg.getD "") →
      authorizeConnection cfg hdr = .accepted) := by
  refine ⟨?_, ?_, ?_, ?_⟩
  · intro hc hd
    by_cases hh : truthyStr hdr = true
    · have hmis : hdr.getD "" ≠ "Bearer " ++ cfg.getD "" := by
        rcases hd with h | h
        · rw [hh] at h; exact absurd h (by simp)
        · exact h
      exact ⟨"invalid access token",
        by simp [authorizeConnection, hh, hc, expectedAccessToken, hmis]⟩
    · simp only [Bool.not_eq_true] at hh
      exact ⟨"no access token provided", by simp [authorizeConnection, hh, hc]⟩
  · intro hc hh
    simp [authorizeConnection, hh, hc]
  · intro hc hh
    simp [authorizeConnection, hh, hc]
  · intro hc he
    subst he
    have hh : truthyStr (some ("Bearer " ++ cfg.getD "")) = true := by
      simp [truthyStr, bearer_ne_empty]
    simp [authorizeConnection, hh, hc, expectedAccessToken]

/-- C7 witness: the exact configured bearer token is accepted. -/
theorem c7_auth_decision_witness :
    authorizeConnection (some "tok") (some ("Bearer " ++ "tok")) = .accepted :=
  (c7_auth_decision (some "tok") (some ("Bearer " ++ "tok"))).2.2.2 (by decide) rfl

theorem regKeys_mapSet_of_mem (reg : Registry) (k : JSVal) (conn : Nat)
    (h : reg.any (fun p => p.1 == k) = true) :
    regKeys (reg.map fun p => if p.1 = k then (k, conn) else p) = regKeys reg := by
  unfold regKeys
  rw [List.map_map]
  apply List.map_congr_left
  intro p _
  by_cases hk : p.1 = k
  · simp [hk]
  · simp [hk]

theorem regLookup_mapSet (reg : Registry) (k : JSVal) (conn : Nat) :
    regLookup (mapSet reg k conn) k = some conn := by
  unfold mapSet
  split
  case isTrue h =>
    induction reg with
    | nil => simp at h
    | cons p rest ih =>
      rw [List.map_cons]
      by_cases hk : p.1 = k
      · rw [if_pos hk]
        simp [regLookup]
      · rw [if_neg hk]
        have hb : (p.1 == k) = false := by simp [hk]
        simp only [List.any_cons, hb, Bool.false_or] at h
        simpa [regLookup, hk] using ih h
  case isFalse h =>
    induction reg with
    | nil => simp [regLookup]
    | cons p rest ih =>
      simp only [List.any_cons, Bool.or_eq_true, not_or] at h
      have hk : ¬ p.1 = k := by
        intro he
        exact h.1 (by simp [he])
      have ih2 := ih h.2
      simp only [List.cons_append, regLookup, hk, if_false]
      exact ih2

theorem mapSet_nodup (reg : Registry) (k : JSVal) (conn : Nat)
    (h : (regKeys reg).Nodup) : (regKeys (mapSet reg k conn)).Nodup := by
  unfold mapSet
  split
  case isTrue ha =>
    rw [regKeys_mapSet_of_mem reg k conn ha]
    exact h
  case isFalse ha =>
    have hk : k ∉ regKeys reg := by
      intro hmem
      apply ha
      simp only [regKeys, List.mem_map] at hmem
      obtain ⟨p, hp, hpk⟩ := hmem
      exact List.any_eq_true.mpr ⟨p, hp, by simp [hpk]⟩
    have : regKeys (reg ++ [(k, conn)]) = regKeys reg ++ [k] := by simp [regKeys]
    rw [this, List.nodup_append]
    refine ⟨h, by simp, ?_⟩
    intro a ha2 hb
    simp only [List.mem_singleton] at hb
    subst hb
    exact hk ha2

/-- C8: the registry invariant and transitions: processing a
lifecycle connect meta-event binds the delivering connection to the
event self id (replacing any prior binding, keys stay unique);
processing any frame that does not decode to a lifecycle connect
event (another event, a junk value from an inherited table member, a
skipped frame, or a decode failure) leaves the registry unchanged; processing a transport close removes exactly
the entries bound to the closed connection and keeps keys unique. -/
theorem c8_registry_transitions (reg : Registry) (conn : Nat) (obj : JSVal)
    (hnd : (regKeys reg).Nodup) :
    (∀ t sid mt st, eventFactory obj = .ok (some (.event (.lifecycleMeta t sid mt st))) →
      st = .str "connect" →
      registryAfterMessage reg conn obj = mapSet reg sid conn ∧
      regLookup (mapSet reg sid conn) sid = some conn ∧
      (regKeys (mapSet reg sid conn)).Nodup) ∧
    ((∀ e, eventFactory obj = .ok (some (.event e)) → isLifecycleConnect e = false) →
      registryAfterMessage reg conn obj = reg) ∧
    (∀ k, eventFactory obj = .ok (some (.protoArtifact k)) →
      registryAfterMessage reg conn obj = reg) ∧
    (∀ e2, eventFactory obj = .error e2 → registryAfterMessage reg conn obj = reg) ∧
    (eventFactory obj = .ok none → registryAfterMessage reg conn obj = reg) ∧
    ((regKeys (registryAfterClose reg conn)).Nodup ∧
      (∀ p ∈ registryAfterClose reg conn, p.2 ≠ conn) ∧
      (∀ p ∈ reg, p.2 ≠ conn → p ∈ registryAfterClose reg conn)) := by
  refine ⟨?_, ?_, ?_, ?_, ?_, ?_, ?_, ?_⟩
  · intro t sid mt st hef hst
    subst hst
    exact ⟨by simp [registryAfterMessage, hef], regLookup_mapSet reg sid conn,
      mapSet_nodup reg sid conn hnd⟩
  · intro hnc
    rcases hef : eventFactory obj with e2 | oe
    · simp [registryAfterMessage, hef]
    · cases oe with
      | none => simp [registryAfterMessage, hef]
      | some d =>
        cases d with
        | protoArtifact k => simp [registryAfterMessage, hef]
        | event e =>
          have hne := hnc e hef
          cases e <;> simp_all [registryAfterMessage, isLifecycleConnect, hef]
  · intro k hef
    simp [registryAfterMessage, hef]
  · intro e2 hef
    simp [registryAfterMessage, hef]
  · intro hef
    simp [registryAfterMessage, hef]
  · exact hnd.sublist ((List.filter_sublist reg).map Prod.fst)
  · intro p hp
    have := (List.mem_filter.mp hp).2
    simpa using this
  · intro p hp hne
    exact List.mem_filter.mpr ⟨hp, by simpa using hne⟩

/-- C8 witness: a lifecycle connect frame for self id 2 arriving on
connection 5 appends the new binding; the binding then resolves to
connection 5. -/
theorem c8_registry_transitions_witness :
    registryAfterMessage [(JSVal.str "1", 0)] 5
      (.obj [("time", .num 1), ("self_id", .str "2"), ("post_type", .str "meta_event"),
        ("meta_event_type", .str "lifecycle"), ("sub_type", .str "connect")]) =
      [(JSVal.str "1", 0), (JSVal.str "2", 5)] ∧
    regLookup (mapSet [(JSVal.str "1", 0)] (JSVal.str "2") 5) (JSVal.str "2") = some 5 := by
  have h := (c8_registry_transitions [(JSVal.str "1", 0)] 5
    (.obj [("time", .num 1), ("self_id", .str "2"), ("post_type", .str "meta_event"),
      ("meta_event_type", .str "lifecycle"), ("sub_type", .str "connect")]) (by decide)).1
    (.num 1) (.str "2") (.str "lifecycle") (.str "connect") rfl rfl
  exact ⟨h.1.trans (by decide), h.2.1⟩
